import Mathlib

/-!
Verification of the webhook handler of the dashboard backend
(src/backend/lib/github/webhook/handler.js) against its specification.

Strings and buffers are modelled as lists of natural numbers (byte values,
respectively JavaScript character codes).  Fallible JavaScript code is
modelled with Except.  The handler source is embedded faithfully; the
event translator and the journal cache live outside the provided sources
and are modelled from the specification where noted.
-/

namespace Dashboard

/-- Bytes and JS strings are lists of character codes. -/
abbrev Bytes := List Nat

/-- Character codes of a Lean string literal (used for ASCII literals of the source). -/
def strBytes (s : String) : Bytes := s.data.map Char.toNat

/-- Node Buffer.from(s, ascii): every character code is truncated to one byte. -/
def bufferFromAscii (s : Bytes) : Bytes := s.map (fun c => c % 256)

/-! ### SHA-1 and HMAC-SHA1 (the `crypto` primitives used by the handler) -/

/-- Truncation to a 32-bit word. -/
def w32 (n : Nat) : Nat := n % 4294967296

/-- Left rotation of a 32-bit word by s bits. -/
def rotl (s n : Nat) : Nat := w32 (n * 2 ^ s + n / 2 ^ (32 - s))

/-- Big-endian byte representation of n in k bytes. -/
def toBytesBE (k n : Nat) : Bytes :=
  (List.range k).map (fun i => n / 2 ^ (8 * (k - 1 - i)) % 256)

/-- Big-endian 32-bit word from (up to) four bytes. -/
def bytesToWordBE (bs : Bytes) : Nat :=
  w32 (bs.foldl (fun acc b => acc * 256 + b % 256) 0)

/-- FIPS 180-1 padding: append 0x80, zeros, and the 64-bit bit length. -/
def padMessage (msg : Bytes) : Bytes :=
  let l := msg.length
  let k := (119 - l % 64) % 64
  msg ++ [128] ++ List.replicate k 0 ++ toBytesBE 8 (8 * l)

/-- Split a byte list into 64-byte blocks. -/
def toBlocks (l : Bytes) : List Bytes :=
  if _h : l.length = 0 then [] else l.take 64 :: toBlocks (l.drop 64)
termination_by l.length
decreasing_by simp only [List.length_drop]; omega

/-- The sixteen 32-bit message words of one block. -/
def wordsOfBlock (b : Bytes) : List Nat :=
  (List.range 16).map (fun i => bytesToWordBE ((b.drop (4 * i)).take 4))

/-- Message schedule expansion from 16 to 80 words. -/
def expandWords (ws : List Nat) : List Nat :=
  (List.range 64).foldl
    (fun acc _ =>
      let n := acc.length
      acc ++ [rotl 1 (Nat.xor (Nat.xor (acc.getD (n - 3) 0) (acc.getD (n - 8) 0))
        (Nat.xor (acc.getD (n - 14) 0) (acc.getD (n - 16) 0)))])
    ws

/-- SHA-1 round function. -/
def sha1F (t b c d : Nat) : Nat :=
  if t < 20 then Nat.lor (Nat.land b c) (Nat.land (4294967295 - w32 b) d)
  else if t < 40 then Nat.xor (Nat.xor b c) d
  else if t < 60 then Nat.lor (Nat.lor (Nat.land b c) (Nat.land b d)) (Nat.land c d)
  else Nat.xor (Nat.xor b c) d

/-- SHA-1 round constants. -/
def sha1K (t : Nat) : Nat :=
  if t < 20 then 1518500249
  else if t < 40 then 1859775393
  else if t < 60 then 2400959708
  else 3395469782

/-- One SHA-1 compression step over a 64-byte block. -/
def sha1Compress (h : Nat × Nat × Nat × Nat × Nat) (block : Bytes) :
    Nat × Nat × Nat × Nat × Nat :=
  let ws := expandWords (wordsOfBlock block)
  let r := (List.range 80).foldl
    (fun st t =>
      match st with
      | (a, b, c, d, e) =>
        (w32 (rotl 5 a + sha1F t b c d + e + sha1K t + ws.getD t 0), a, rotl 30 b, c, d))
    (h.1, h.2.1, h.2.2.1, h.2.2.2.1, h.2.2.2.2)
  match r with
  | (a, b, c, d, e) =>
    (w32 (h.1 + a), w32 (h.2.1 + b), w32 (h.2.2.1 + c), w32 (h.2.2.2.1 + d),
      w32 (h.2.2.2.2 + e))

/-- SHA-1 digest (20 bytes) of a byte message. -/
def sha1 (msg : Bytes) : Bytes :=
  let h := (toBlocks (padMessage msg)).foldl sha1Compress
    (1732584193, 4023233417, 2562383102, 271733878, 3285377520)
  match h with
  | (a, b, c, d, e) =>
    toBytesBE 4 a ++ toBytesBE 4 b ++ toBytesBE 4 c ++ toBytesBE 4 d ++ toBytesBE 4 e

/-- HMAC-SHA1 (RFC 2104) with a 64-byte block size. -/
def hmacSha1 (key msg : Bytes) : Bytes :=
  let key := if key.length > 64 then sha1 key else key
  let key := key ++ List.replicate (64 - key.length) 0
  let ipad := key.map (fun b => Nat.xor (b % 256) 54)
  let opad := key.map (fun b => Nat.xor (b % 256) 92)
  sha1 (opad ++ sha1 (ipad ++ msg))

/-! ### Hub signature construction and comparison (handler.js) -/

/-- Character code of a lowercase hex digit for a nibble. -/
def hexDigitChar (n : Nat) : Nat := if n < 10 then 48 + n else 87 + n

/-- Lowercase hex encoding of a byte list, as character codes. -/
def hexEncode : Bytes → Bytes
  | [] => []
  | b :: rest => hexDigitChar (b % 256 / 16) :: hexDigitChar (b % 16) :: hexEncode rest

/-- Value of one hex digit character code. -/
def hexDigitVal (c : Nat) : Nat :=
  if 97 ≤ c then c - 87 else if 65 ≤ c then c - 55 else c - 48

/-- Decode a hex character-code string to bytes (Buffer.from(s, hex)). -/
def hexDecode : Bytes → Bytes
  | a :: b :: rest => (hexDigitVal a * 16 + hexDigitVal b) :: hexDecode rest
  | _ => []

/-- In the source: Buffer.from(73686131, hex).toString(ascii), i.e. the string sha1. -/
def hubSignatureAlgorithm : Bytes := hexDecode (strBytes "73686131")

/-- createHubSignature(secret, value): the template string sha1= followed by
the lowercase hex HMAC-SHA1 digest of value under secret. -/
def createHubSignature (secret value : Bytes) : Bytes :=
  hubSignatureAlgorithm ++ [61] ++ hexEncode (hmacSha1 secret value)

/-- Node crypto.timingSafeEqual: throws a RangeError when the buffer lengths
differ, otherwise ORs together the XORs of corresponding bytes and compares
the accumulator with zero. -/
def timingSafeEqual (a b : Bytes) : Except String Bool :=
  if a.length = b.length then
    .ok (((List.zipWith Nat.xor a b).foldl Nat.lor 0) == 0)
  else .error "RangeError: input buffers must have the same length"

/-- digestsEqual(a, b) from handler.js: both arguments are converted to ascii
buffers; the length equality check short-circuits before timingSafeEqual. -/
def digestsEqual (a b : Bytes) : Except String Bool :=
  let a := bufferFromAscii a
  let b := bufferFromAscii b
  if a.length = b.length then timingSafeEqual a b else .ok false

/-- Errors thrown by the handler: InternalServerError, Forbidden, or a
propagated JavaScript runtime error. -/
inductive HandlerError where
  | internalServerError (msg : String)
  | forbidden (msg : String)
  | jsError (msg : String)
deriving DecidableEq, Repr

/-- Whether a config value or header string is truthy in JavaScript
(present and nonempty). -/
def jsTruthy : Option Bytes → Bool
  | none => false
  | some s => !s.isEmpty

/-- Message of the configuration error of verifyHubSignature. -/
def secretNotConfiguredMsg : String :=
  "Property gitHub.webhookSecret not configured on dashboard backend"

/-- Message of the missing-header error of verifyHubSignature. -/
def signatureHeaderMissingMsg : String := "Header x-hub-signature not provided"

/-- Message of the mismatch error of verifyHubSignature. -/
def signatureMismatchMsg : String := "Signatures did not match"

/-- verifyHubSignature(req, res, body) from handler.js, with the configured
webhook secret and the x-hub-signature header as explicit inputs. -/
def verifyHubSignature (webhookSecret requestSignature : Option Bytes)
    (body : Bytes) : Except HandlerError Unit :=
  if jsTruthy webhookSecret = false then
    .error (.internalServerError secretNotConfiguredMsg)
  else
    match webhookSecret with
    | none => .error (.internalServerError secretNotConfiguredMsg)
    | some secret =>
      if jsTruthy requestSignature = false then
        .error (.forbidden signatureHeaderMissingMsg)
      else
        match requestSignature with
        | none => .error (.forbidden signatureHeaderMissingMsg)
        | some reqSig =>
          let signature := createHubSignature secret body
          match digestsEqual reqSig signature with
          | .error e => .error (.jsError e)
          | .ok true => .ok ()
          | .ok false => .error (.forbidden signatureMismatchMsg)

/-! ### Domain records produced by the Event Translator -/

/-- Logical key of a tracked resource referenced by an issue. -/
structure TrackedKey where
  «namespace» : String
  name : String
deriving DecidableEq, Repr

/-- Metadata of a translated Issue: logical key plus upstream identifiers. -/
structure IssueMetadata where
  «namespace» : String
  name : String
  number : Nat
  id : Nat
deriving DecidableEq, Repr

/-- Data of a translated Issue. The comment count may be absent on the wire. -/
structure IssueData where
  body : String
  comments : Option Nat
  state : String
  created_at : String
  updated_at : String
deriving DecidableEq, Repr

/-- A tracked issue record held by the journal cache. -/
structure Issue where
  metadata : IssueMetadata
  data : IssueData
deriving DecidableEq, Repr

/-- Metadata of a translated Comment. The parent keys are absent when the
parent issue was untracked. -/
structure CommentMetadata where
  id : Nat
  number : Option Nat
  name : Option String
  «namespace» : Option String
deriving DecidableEq, Repr

/-- Data of a translated Comment. -/
structure CommentData where
  body : String
  created_at : String
  updated_at : String
deriving DecidableEq, Repr

/-- A comment record held by the journal cache. -/
structure Comment where
  metadata : CommentMetadata
  data : CommentData
deriving DecidableEq, Repr

/-! ### Wire payloads (GitHub issue/comment JSON, fields used by the core) -/

/-- Wire-format issue payload. -/
structure WireIssue where
  id : Nat
  number : Nat
  title : String
  body : String
  comments : Option Nat
  state : String
  created_at : String
  updated_at : String
deriving DecidableEq, Repr

/-- Wire-format comment payload. -/
structure WireComment where
  id : Nat
  body : String
  created_at : String
  updated_at : String
deriving DecidableEq, Repr

/-- Modelled from the spec: fromIssue of lib/services/journals is not under
src.  Per the specification the translator derives (namespace, name) from a
recognized pattern inside the wire payload body/title — abstracted here as
the matchKey argument; when no pattern matches, the issue is untracked and
the translation yields no domain record. -/
def fromIssue (matchKey : String → String → Option TrackedKey) (w : WireIssue) :
    Option Issue :=
  (matchKey w.title w.body).map fun k =>
    { metadata := { «namespace» := k.«namespace», name := k.name,
                    number := w.number, id := w.id }
      data := { body := w.body, comments := w.comments, state := w.state,
                created_at := w.created_at, updated_at := w.updated_at } }

/-- Modelled from the spec: fromComment of lib/services/journals is not under
src.  It builds a Comment from a wire payload and the parent issue keys the
handler passes (which are all absent when the parent issue was untracked). -/
def fromComment (issueNumber : Option Nat) (name «namespace» : Option String)
    (w : WireComment) : Comment :=
  { metadata := { id := w.id, number := issueNumber, name := name,
                  «namespace» := «namespace» }
    data := { body := w.body, created_at := w.created_at, updated_at := w.updated_at } }

/-! ### The journal cache (modelled from the spec) -/

/-- Logical key of an issue in the cache. -/
def Issue.key (i : Issue) : String × String × Nat :=
  (i.metadata.«namespace», i.metadata.name, i.metadata.number)

/-- Watch-stream change kinds. -/
inductive EventType where
  | ADDED
  | MODIFIED
  | DELETED
deriving DecidableEq, Repr

/-- Change notification emitted by the cache after a successful mutation. -/
inductive ChangeEvent where
  | issueEvent (type : EventType) (object : Issue)
  | commentEvent (type : EventType) (object : Comment)
deriving DecidableEq, Repr

/-- The journal cache state: issues and comments in insertion order. -/
structure Cache where
  issues : List Issue
  comments : List (Nat × Comment)
deriving DecidableEq, Repr

/-- Modelled from the spec: addOrUpdateIssue of lib/cache is not under src.
Upserts by logical key, emitting ADDED on insert and MODIFIED only when the
record changed.  A missing record (a JS undefined or key-less object, from
an untracked payload) never reaches the indexed store and is dropped with no
event, per the TranslationSkip policy of the specification. -/
def Cache.addOrUpdateIssue (c : Cache) (issue : Option Issue) :
    Cache × List ChangeEvent :=
  match issue with
  | none => (c, [])
  | some i =>
    match c.issues.find? (fun j => j.key == i.key) with
    | none => ({ c with issues := c.issues ++ [i] }, [.issueEvent .ADDED i])
    | some j =>
      if j = i then (c, [])
      else ({ c with issues := c.issues.map (fun x => if x.key == i.key then i else x) },
        [.issueEvent .MODIFIED i])

/-- Modelled from the spec: removeIssue of lib/cache is not under src.
Deletes by logical key, emitting DELETED when present; a no-op on an absent
key or a missing (untracked) record. -/
def Cache.removeIssue (c : Cache) (issue : Option Issue) :
    Cache × List ChangeEvent :=
  match issue with
  | none => (c, [])
  | some i =>
    match c.issues.find? (fun j => j.key == i.key) with
    | none => (c, [])
    | some j =>
      ({ c with issues := c.issues.filter (fun x => !(x.key == i.key)) },
        [.issueEvent .DELETED j])

/-- Modelled from the spec: addOrUpdateComment of lib/cache is not under src.
Upserts by the key (issueNumber, comment id); a key-less record (absent
issueNumber, from an untracked parent issue) is dropped with no event. -/
def Cache.addOrUpdateComment (c : Cache) (issueNumber : Option Nat)
    (comment : Comment) : Cache × List ChangeEvent :=
  match issueNumber with
  | none => (c, [])
  | some n =>
    match c.comments.find? (fun p => p.1 == n && p.2.metadata.id == comment.metadata.id) with
    | none =>
      ({ c with comments := c.comments ++ [(n, comment)] },
        [.commentEvent .ADDED comment])
    | some p =>
      if p.2 = comment then (c, [])
      else
        let upd := fun (q : Nat × Comment) =>
          if q.1 == n && q.2.metadata.id == comment.metadata.id then (n, comment) else q
        ({ c with comments := c.comments.map upd }, [.commentEvent .MODIFIED comment])

/-- Modelled from the spec: removeComment of lib/cache is not under src.
Deletes by the key (issueNumber, comment id), emitting DELETED when present;
a no-op on an absent or key-less record. -/
def Cache.removeComment (c : Cache) (issueNumber : Option Nat)
    (comment : Comment) : Cache × List ChangeEvent :=
  match issueNumber with
  | none => (c, [])
  | some n =>
    match c.comments.find? (fun p => p.1 == n && p.2.metadata.id == comment.metadata.id) with
    | none => (c, [])
    | some p =>
      let keep := fun (q : Nat × Comment) =>
        !(q.1 == n && q.2.metadata.id == comment.metadata.id)
      ({ c with comments := c.comments.filter keep }, [.commentEvent .DELETED p.2])

/-- A cache mutation requested by the webhook handler, in call order. -/
inductive CacheOp where
  | addOrUpdateIssue (issue : Option Issue)
  | removeIssue (issue : Option Issue)
  | addOrUpdateComment (issueNumber : Option Nat) (comment : Comment)
  | removeComment (issueNumber : Option Nat) (comment : Comment)
deriving DecidableEq, Repr

/-- Apply one cache operation. -/
def applyOp (c : Cache) : CacheOp → Cache × List ChangeEvent
  | .addOrUpdateIssue i => c.addOrUpdateIssue i
  | .removeIssue i => c.removeIssue i
  | .addOrUpdateComment n cm => c.addOrUpdateComment n cm
  | .removeComment n cm => c.removeComment n cm

/-- Apply a list of cache operations in order, concatenating emitted events. -/
def applyOps (c : Cache) (ops : List CacheOp) : Cache × List ChangeEvent :=
  ops.foldl
    (fun acc op =>
      let r := applyOp acc.1 op
      (r.1, acc.2 ++ r.2))
    (c, [])

/-! ### The webhook dispatcher (handler.js) -/

/-- handleIssue from handler.js: translates the wire issue, then on action
closed calls removeIssue and returns; otherwise calls addOrUpdateIssue and,
on action reopened, schedules updateCommentsForIssue on the next tick.
The result lists the cache operations performed (in call order) and the
backfill tasks scheduled. -/
def handleIssue (matchKey : String → String → Option TrackedKey)
    (action : String) (wireIssue : WireIssue) :
    List CacheOp × List (Option Issue) :=
  let issue := fromIssue matchKey wireIssue
  if action = "closed" then ([CacheOp.removeIssue issue], [])
  else
    ([CacheOp.addOrUpdateIssue issue],
      if action = "reopened" then [issue] else [])

/-- Decidable equality of promise outcomes. -/
instance {ε α : Type} [DecidableEq ε] [DecidableEq α] : DecidableEq (Except ε α) :=
  fun a b =>
    match a, b with
    | .ok x, .ok y =>
      if h : x = y then .isTrue (congrArg Except.ok h)
      else .isFalse (fun hh => h (Except.ok.inj hh))
    | .error x, .error y =>
      if h : x = y then .isTrue (congrArg Except.error h)
      else .isFalse (fun hh => h (Except.error.inj hh))
    | .ok _, .error _ => .isFalse Except.noConfusion
    | .error _, .ok _ => .isFalse Except.noConfusion

/-- Observable outcome of one run of the scheduled comment backfill:
which issue numbers were fetched upstream, what was logged, and the
result the caller of the returned promise would observe. -/
structure BackfillOutcome where
  fetched : List Nat
  logged : List String
  result : Except String Unit
deriving DecidableEq, Repr

/-- updateCommentsForIssue from handler.js: reads the comment count of the
translated issue (defaulting to 0 when absent) and, only when it is
positive, fetches the comments for the issue number upstream, attaching a
catch handler that logs a failure and resolves.  The upstream call
loadIssueComments (lib/services/journals, not under src) is abstracted by
the fetch argument giving its outcome per issue number. -/
def updateCommentsForIssue (fetch : Nat → Except String Unit) (issue : Issue) :
    BackfillOutcome :=
  let numberOfComments := issue.data.comments.getD 0
  let number := issue.metadata.number
  if numberOfComments > 0 then
    match fetch number with
    | .ok _ => { fetched := [number], logged := [], result := .ok () }
    | .error err =>
      { fetched := [number]
        logged := ["failed to fetch comments for reopened issue: " ++ err]
        result := .ok () }
  else { fetched := [], logged := [], result := .ok () }

/-- handleComment from handler.js: translates the parent wire issue (an
untracked parent leaves all parent keys absent), builds the comment via
fromComment, always calls addOrUpdateIssue for the parent, then dispatches
on the action: deleted calls removeComment, anything else
addOrUpdateComment. -/
def handleComment (matchKey : String → String → Option TrackedKey)
    (action : String) (wireIssue : WireIssue) (wireComment : WireComment) :
    List CacheOp :=
  let issue := fromIssue matchKey wireIssue
  let «namespace» := issue.map (fun i => i.metadata.«namespace»)
  let name := issue.map (fun i => i.metadata.name)
  let issueNumber := issue.map (fun i => i.metadata.number)
  let comment := fromComment issueNumber name «namespace» wireComment
  CacheOp.addOrUpdateIssue issue ::
    (if action = "deleted" then [CacheOp.removeComment issueNumber comment]
     else [CacheOp.addOrUpdateComment issueNumber comment])

/-- The log line of the default branch of handleGithubEvent. -/
def unhandledEventMsg (event : Option String) : String :=
  "Unhandled event: " ++ event.getD "undefined"

/-- Result of one dispatch of handleGithubEvent: cache operations performed,
backfill tasks scheduled, log lines written, and whether the response was
ended successfully. -/
structure DispatchResult where
  ops : List CacheOp
  scheduled : List (Option Issue)
  logs : List String
  responseEnded : Bool
deriving DecidableEq, Repr

/-- handleGithubEvent from handler.js: switches on the x-github-event
header, dispatching issues to handleIssue and issue_comment to
handleComment; any other event is logged and otherwise ignored.  In every
branch the response is ended with an empty 200 body. -/
def handleGithubEvent (matchKey : String → String → Option TrackedKey)
    (event : Option String) (action : String)
    (issue : WireIssue) (comment : WireComment) : DispatchResult :=
  if event = some "issues" then
    let r := handleIssue matchKey action issue
    { ops := r.1, scheduled := r.2, logs := [], responseEnded := true }
  else if event = some "issue_comment" then
    { ops := handleComment matchKey action issue comment
      scheduled := []
      logs := []
      responseEnded := true }
  else
    { ops := [], scheduled := [], logs := [unhandledEventMsg event],
      responseEnded := true }

/-! ### Correctness of the constant-time comparison -/

/-- The bitwise OR of two naturals is zero exactly when both are zero. -/
theorem lor_eq_zero {m n : Nat} : Nat.lor m n = 0 ↔ m = 0 ∧ n = 0 := by
  have e : Nat.lor m n = m ||| n := rfl
  rw [e]
  constructor
  · intro h
    constructor <;> apply Nat.eq_of_testBit_eq <;> intro i <;>
      have hb := congrArg (fun x => Nat.testBit x i) h <;>
      simp only [Nat.testBit_or, Nat.zero_testBit, Bool.or_eq_false_iff] at hb
    · simp [hb.1]
    · simp [hb.2]
  · rintro ⟨rfl, rfl⟩
    rfl

/-- Folding OR over a list gives zero exactly when the accumulator and every
element are zero. -/
theorem foldl_lor_eq_zero (l : List Nat) (acc : Nat) :
    l.foldl Nat.lor acc = 0 ↔ acc = 0 ∧ ∀ x ∈ l, x = 0 := by
  induction l generalizing acc with
  | nil => simp
  | cons x t ih =>
    simp only [List.foldl_cons, ih, lor_eq_zero, List.mem_cons]
    constructor
    · rintro ⟨⟨h1, h2⟩, h3⟩
      exact ⟨h1, fun y hy => hy.elim (fun e => e ▸ h2) (h3 y)⟩
    · rintro ⟨h1, h2⟩
      exact ⟨⟨h1, h2 x (Or.inl rfl)⟩, fun y hy => h2 y (Or.inr hy)⟩

/-- All pairwise XORs of two same-length lists vanish exactly when the lists
are equal. -/
theorem zipWith_xor_all_zero (a : List Nat) :
    ∀ b : List Nat, a.length = b.length →
      ((∀ x ∈ List.zipWith Nat.xor a b, x = 0) ↔ a = b) := by
  induction a with
  | nil =>
    intro b hb
    cases b with
    | nil => simp
    | cons y s => simp at hb
  | cons x t ih =>
    intro b hb
    cases b with
    | nil => simp at hb
    | cons y s =>
      simp only [List.length_cons, Nat.succ.injEq] at hb
      have exor : ∀ u v : Nat, Nat.xor u v = u ^^^ v := fun _ _ => rfl
      simp only [List.zipWith_cons_cons, List.mem_cons, List.cons.injEq]
      constructor
      · intro hz
        have hx : x = y := by
          have := hz _ (Or.inl rfl)
          rw [exor] at this
          exact Nat.xor_eq_zero.mp this
        exact ⟨hx, (ih s hb).mp (fun z hzz => hz z (Or.inr hzz))⟩
      · rintro ⟨rfl, rfl⟩
        intro z hz
        rcases hz with h | h
        · rw [h]
          exact Nat.xor_self x
        · exact ((ih t hb).mpr rfl) z h

/-- On same-length inputs timingSafeEqual does not throw and decides
equality of the two byte lists. -/
theorem timingSafeEqual_ok (a b : Bytes) (h : a.length = b.length) :
    timingSafeEqual a b = .ok true ↔ a = b := by
  unfold timingSafeEqual
  rw [if_pos h]
  simp only [Except.ok.injEq, beq_iff_eq]
  rw [foldl_lor_eq_zero]
  simp only [true_and]
  exact zipWith_xor_all_zero a b h

/-- digestsEqual never throws: the length guard short-circuits before the
comparison that would. -/
theorem digestsEqual_ne_error (a b : Bytes) (e : String) :
    digestsEqual a b ≠ .error e := by
  unfold digestsEqual timingSafeEqual
  by_cases h : (bufferFromAscii a).length = (bufferFromAscii b).length <;>
    simp [h]

/-- digestsEqual returns true exactly on equal ascii-truncated inputs. -/
theorem digestsEqual_ok_true_iff (a b : Bytes) :
    digestsEqual a b = .ok true ↔ bufferFromAscii a = bufferFromAscii b := by
  unfold digestsEqual
  by_cases h : (bufferFromAscii a).length = (bufferFromAscii b).length
  · rw [if_pos h, timingSafeEqual_ok _ _ h]
  · rw [if_neg h]
    constructor
    · intro hc
      exact absurd hc (by simp)
    · intro hc
      exact absurd (congrArg List.length hc) h

/-! ### Byte bounds of the computed signature -/

/-- Hex digit character codes of nibbles are below 256. -/
theorem hexDigitChar_lt (n : Nat) (h : n < 16) : hexDigitChar n < 256 := by
  unfold hexDigitChar
  split <;> omega

/-- Every character code of a hex encoding is below 256. -/
theorem hexEncode_lt_256 (l : Bytes) : ∀ c ∈ hexEncode l, c < 256 := by
  induction l with
  | nil => simp [hexEncode]
  | cons b t ih =>
    intro c hc
    simp only [hexEncode, List.mem_cons] at hc
    rcases hc with rfl | rfl | hc
    · exact hexDigitChar_lt _ (by omega)
    · exact hexDigitChar_lt _ (by omega)
    · exact ih c hc

/-- The decoded algorithm constant is the ascii string sha1. -/
theorem hubSignatureAlgorithm_eq : hubSignatureAlgorithm = [115, 104, 97, 49] := by
  decide

/-- Every character code of a hub signature is below 256. -/
theorem createHubSignature_lt_256 (s v : Bytes) :
    ∀ c ∈ createHubSignature s v, c < 256 := by
  intro c hc
  unfold createHubSignature at hc
  rw [hubSignatureAlgorithm_eq] at hc
  simp only [List.append_assoc, List.cons_append, List.nil_append,
    List.mem_cons, List.mem_append] at hc
  rcases hc with rfl | rfl | rfl | rfl | rfl | hc
  · omega
  · omega
  · omega
  · omega
  · omega
  · exact hexEncode_lt_256 _ c hc

/-- A hub signature is never the empty string. -/
theorem createHubSignature_ne_nil (s v : Bytes) : createHubSignature s v ≠ [] := by
  unfold createHubSignature
  rw [hubSignatureAlgorithm_eq]
  simp

/-- Ascii conversion is the identity on genuine byte lists. -/
theorem bufferFromAscii_eq_self (l : Bytes) (h : ∀ c ∈ l, c < 256) :
    bufferFromAscii l = l := by
  induction l with
  | nil => rfl
  | cons b t ih =>
    unfold bufferFromAscii
    simp only [List.map_cons, List.cons.injEq]
    constructor
    · exact Nat.mod_eq_of_lt (h b (List.mem_cons_self b t))
    · exact ih (fun c hc => h c (List.mem_cons_of_mem b hc))

/-! ### Branch structure of verifyHubSignature -/

/-- A present nonempty string is truthy. -/
theorem jsTruthy_some_ne_nil (l : Bytes) (h : l ≠ []) : jsTruthy (some l) = true := by
  cases l with
  | nil => exact absurd rfl h
  | cons a t => rfl

/-- A falsy configured secret takes the configuration-error branch. -/
theorem verify_no_secret (ws hdr : Option Bytes) (body : Bytes)
    (h : jsTruthy ws = false) :
    verifyHubSignature ws hdr body =
      .error (.internalServerError secretNotConfiguredMsg) := by
  unfold verifyHubSignature
  rw [if_pos h]

/-- With a configured secret, a falsy header takes the missing-header branch. -/
theorem verify_no_header (secret : Bytes) (hdr : Option Bytes) (body : Bytes)
    (hs : secret ≠ []) (hh : jsTruthy hdr = false) :
    verifyHubSignature (some secret) hdr body =
      .error (.forbidden signatureHeaderMissingMsg) := by
  unfold verifyHubSignature
  rw [if_neg (by simp [jsTruthy_some_ne_nil secret hs])]
  dsimp only
  rw [if_pos hh]

/-- With a configured secret and a nonempty header, verification reduces to
the digest comparison. -/
theorem verify_compare (secret hs body : Bytes) (h1 : secret ≠ []) (h2 : hs ≠ []) :
    verifyHubSignature (some secret) (some hs) body =
      (match digestsEqual hs (createHubSignature secret body) with
       | .error e => .error (.jsError e)
       | .ok true => .ok ()
       | .ok false => .error (.forbidden signatureMismatchMsg)) := by
  unfold verifyHubSignature
  rw [if_neg (by simp [jsTruthy_some_ne_nil secret h1])]
  dsimp only
  rw [if_neg (by simp [jsTruthy_some_ne_nil hs h2])]

/-- An option is truthy exactly when it holds a nonempty string. -/
theorem jsTruthy_true_iff (o : Option Bytes) :
    jsTruthy o = true ↔ ∃ l, o = some l ∧ l ≠ [] := by
  cases o with
  | none => simp [jsTruthy]
  | some l =>
    cases l with
    | nil => simp [jsTruthy]
    | cons a t => simp [jsTruthy]

/-- C1: with a configured secret S, verifyHubSignature accepts header h for
raw body B exactly when h equals createHubSignature S B, the string sha1=
followed by the lowercase hex HMAC-SHA1 digest of B under S; every other
header value is rejected with an authentication failure (Forbidden). -/
theorem verifyHubSignature_accepts_iff_createHubSignature
    (secret h body : Bytes) (hs : secret ≠ []) (hh : ∀ c ∈ h, c < 256) :
    (verifyHubSignature (some secret) (some h) body = .ok () ↔
      h = createHubSignature secret body) ∧
    (h ≠ createHubSignature secret body →
      ∃ m, verifyHubSignature (some secret) (some h) body = .error (.forbidden m)) := by
  have hsig := createHubSignature_lt_256 secret body
  have hbufh : bufferFromAscii h = h := bufferFromAscii_eq_self h hh
  have hbufs : bufferFromAscii (createHubSignature secret body) =
      createHubSignature secret body := bufferFromAscii_eq_self _ hsig
  by_cases hnil : h = []
  · subst hnil
    rw [verify_no_header secret (some []) body hs rfl]
    refine ⟨⟨fun hcon => absurd hcon (by simp), fun hcon => ?_⟩, fun _ => ⟨_, rfl⟩⟩
    exact absurd hcon.symm (createHubSignature_ne_nil secret body)
  · rw [verify_compare secret h body hs hnil]
    have hiff : digestsEqual h (createHubSignature secret body) = .ok true ↔
        h = createHubSignature secret body := by
      rw [digestsEqual_ok_true_iff, hbufh, hbufs]
    cases hde : digestsEqual h (createHubSignature secret body) with
    | error e => exact absurd hde (digestsEqual_ne_error h _ e)
    | ok b =>
      rw [hde] at hiff
      cases b with
      | false =>
        have hne : h ≠ createHubSignature secret body := fun he => by
          have := hiff.mpr he
          simp at this
        refine ⟨⟨fun hcon => absurd hcon (by simp), fun he => absurd he hne⟩,
          fun _ => ⟨_, rfl⟩⟩
      | true =>
        have heq : h = createHubSignature secret body := hiff.mp rfl
        exact ⟨⟨fun _ => heq, fun _ => rfl⟩, fun hne => absurd heq hne⟩

/-- Witness for C1 at a concrete secret, header and body. -/
theorem verifyHubSignature_accepts_iff_createHubSignature_witness :
    (verifyHubSignature (some [97]) (some [115]) [98] = .ok () ↔
      [115] = createHubSignature [97] [98]) ∧
    ([115] ≠ createHubSignature [97] [98] →
      ∃ m, verifyHubSignature (some [97]) (some [115]) [98] = .error (.forbidden m)) :=
  verifyHubSignature_accepts_iff_createHubSignature [97] [115] [98]
    (by decide) (by intro c hc; simp at hc; omega)

/-- With a configured nonempty secret, verification never throws the
configuration error. -/
theorem verify_not_internalServerError (secret : Bytes) (hdr : Option Bytes)
    (body : Bytes) (hne : secret ≠ []) (m : String) :
    verifyHubSignature (some secret) hdr body ≠
      .error (.internalServerError m) := by
  intro hm
  by_cases hhd : jsTruthy hdr = false
  · rw [verify_no_header secret hdr body hne hhd] at hm
    exact HandlerError.noConfusion (Except.error.inj hm)
  · have hhtrue : jsTruthy hdr = true := by
      cases hj : jsTruthy hdr
      · exact absurd hj hhd
      · rfl
    obtain ⟨hs0, rfl, hhne0⟩ := (jsTruthy_true_iff hdr).mp hhtrue
    rw [verify_compare secret hs0 body hne hhne0] at hm
    cases hde : digestsEqual hs0 (createHubSignature secret body) with
    | error e => exact absurd hde (digestsEqual_ne_error hs0 _ e)
    | ok b =>
      rw [hde] at hm
      cases b with
      | false => exact HandlerError.noConfusion (Except.error.inj hm)
      | true => exact Except.noConfusion hm

/-- C7: verifyHubSignature throws the 500-class configuration error exactly
when no nonempty webhook secret is configured; with a configured secret it
throws the 403-class Forbidden exactly when the signature header is absent
or does not pass the digest comparison against the expected signature, and
succeeds otherwise. -/
theorem verifyHubSignature_error_taxonomy (ws hdr : Option Bytes) (body : Bytes) :
    ((∃ m, verifyHubSignature ws hdr body = .error (.internalServerError m)) ↔
      jsTruthy ws = false) ∧
    (∀ secret, ws = some secret → jsTruthy ws = true →
      (((∃ m, verifyHubSignature ws hdr body = .error (.forbidden m)) ↔
          ¬ ∃ hs, hdr = some hs ∧
            digestsEqual hs (createHubSignature secret body) = .ok true) ∧
        (verifyHubSignature ws hdr body = .ok () ↔
          ∃ hs, hdr = some hs ∧
            digestsEqual hs (createHubSignature secret body) = .ok true))) := by
  constructor
  · by_cases htr : jsTruthy ws = false
    · rw [verify_no_secret ws hdr body htr]
      exact ⟨fun _ => htr, fun _ => ⟨_, rfl⟩⟩
    · have htrue : jsTruthy ws = true := by
        cases hj : jsTruthy ws
        · exact absurd hj htr
        · rfl
      obtain ⟨secret0, rfl, hne0⟩ := (jsTruthy_true_iff ws).mp htrue
      constructor
      · rintro ⟨m, hm⟩
        exact absurd hm (verify_not_internalServerError secret0 hdr body hne0 m)
      · intro hc
        rw [htrue] at hc
        exact absurd hc (by simp)
  · rintro secret rfl htrue
    have hne0 : secret ≠ [] := by
      obtain ⟨l, hl, hlne⟩ := (jsTruthy_true_iff _).mp htrue
      cases Option.some.inj hl
      exact hlne
    by_cases hhd : jsTruthy hdr = false
    · rw [verify_no_header secret hdr body hne0 hhd]
      have hnomatch : ¬ ∃ hs, hdr = some hs ∧
          digestsEqual hs (createHubSignature secret body) = .ok true := by
        rintro ⟨hs0, rfl, hmt⟩
        have hs0nil : hs0 = [] := by
          cases hs0 with
          | nil => rfl
          | cons a t => simp [jsTruthy] at hhd
        subst hs0nil
        rw [digestsEqual_ok_true_iff] at hmt
        have hlen := congrArg List.length hmt
        simp only [bufferFromAscii, List.map_nil, List.length_nil,
          List.length_map] at hlen
        exact (createHubSignature_ne_nil secret body)
          (List.eq_nil_of_length_eq_zero hlen.symm)
      refine ⟨⟨fun _ => hnomatch, fun _ => ⟨_, rfl⟩⟩,
        ⟨fun hcon => absurd hcon (by simp), fun hex => absurd hex hnomatch⟩⟩
    · have hhtrue : jsTruthy hdr = true := by
        cases hj : jsTruthy hdr
        · exact absurd hj hhd
        · rfl
      obtain ⟨hs0, rfl, hhne0⟩ := (jsTruthy_true_iff hdr).mp hhtrue
      rw [verify_compare secret hs0 body hne0 hhne0]
      cases hde : digestsEqual hs0 (createHubSignature secret body) with
      | error e => exact absurd hde (digestsEqual_ne_error hs0 _ e)
      | ok b =>
        cases b with
        | false =>
          have hnomatch : ¬ ∃ hs, (some hs0 : Option Bytes) = some hs ∧
              digestsEqual hs (createHubSignature secret body) = .ok true := by
            rintro ⟨hs1, he, hmt⟩
            cases Option.some.inj he
            rw [hde] at hmt
            exact absurd hmt (by simp)
          exact ⟨⟨fun _ => hnomatch, fun _ => ⟨_, rfl⟩⟩,
            ⟨fun hcon => absurd hcon (by simp), fun hex => absurd hex hnomatch⟩⟩
        | true =>
          have hmatch : ∃ hs, (some hs0 : Option Bytes) = some hs ∧
              digestsEqual hs (createHubSignature secret body) = .ok true :=
            ⟨hs0, rfl, hde⟩
          refine ⟨⟨fun hfe => ?_, fun hex => absurd hmatch hex⟩,
            ⟨fun _ => hmatch, fun _ => rfl⟩⟩
          obtain ⟨m, hm⟩ := hfe
          exact Except.noConfusion hm

/-- Witness for C7 at a concrete configured secret, header and body. -/
theorem verifyHubSignature_error_taxonomy_witness :
    ((∃ m, verifyHubSignature (some [97]) (some [115]) [98] =
        .error (.internalServerError m)) ↔ jsTruthy (some [97]) = false) ∧
    (∀ secret, (some [97] : Option Bytes) = some secret →
      jsTruthy (some [97]) = true →
      (((∃ m, verifyHubSignature (some [97]) (some [115]) [98] =
            .error (.forbidden m)) ↔
          ¬ ∃ hs, (some [115] : Option Bytes) = some hs ∧
            digestsEqual hs (createHubSignature secret [98]) = .ok true) ∧
        (verifyHubSignature (some [97]) (some [115]) [98] = .ok () ↔
          ∃ hs, (some [115] : Option Bytes) = some hs ∧
            digestsEqual hs (createHubSignature secret [98]) = .ok true))) :=
  verifyHubSignature_error_taxonomy (some [97]) (some [115]) [98]

/-- C8: on inputs of differing byte lengths digestsEqual returns false and
raises no error, because the length equality check short-circuits before the
constant-time comparison, which would throw on mismatched lengths. -/
theorem digestsEqual_length_mismatch (a b : Bytes) (hlen : a.length ≠ b.length) :
    digestsEqual a b = .ok false ∧
    ∃ e, timingSafeEqual (bufferFromAscii a) (bufferFromAscii b) = .error e := by
  have hl : ¬ (bufferFromAscii a).length = (bufferFromAscii b).length := by
    simpa [bufferFromAscii] using hlen
  constructor
  · unfold digestsEqual
    rw [if_neg hl]
  · unfold timingSafeEqual
    rw [if_neg hl]
    exact ⟨_, rfl⟩

/-- Witness for C8 at inputs of lengths one and two. -/
theorem digestsEqual_length_mismatch_witness :
    digestsEqual [1] [2, 3] = .ok false ∧
    ∃ e, timingSafeEqual (bufferFromAscii [1]) (bufferFromAscii [2, 3]) =
      .error e :=
  digestsEqual_length_mismatch [1] [2, 3] (by decide)

/-- C10: when the secret is unconfigured and the signature header absent,
verifyHubSignature throws the configuration error, not the authentication
one — the missing-secret check strictly precedes the missing-header check. -/
theorem verify_unconfigured_beats_missing_header (ws : Option Bytes)
    (body : Bytes) (hws : jsTruthy ws = false) :
    verifyHubSignature ws none body =
      .error (.internalServerError secretNotConfiguredMsg) ∧
    ∀ m, verifyHubSignature ws none body ≠ .error (.forbidden m) := by
  rw [verify_no_secret ws none body hws]
  exact ⟨rfl, fun m hc => HandlerError.noConfusion (Except.error.inj hc)⟩

/-- Witness for C10 with no configured secret and no header. -/
theorem verify_unconfigured_beats_missing_header_witness :
    verifyHubSignature none none [98] =
      .error (.internalServerError secretNotConfiguredMsg) ∧
    ∀ m, verifyHubSignature none none [98] ≠ .error (.forbidden m) :=
  verify_unconfigured_beats_missing_header none [98] (by decide)

/-! ### Dispatcher claims -/

/-- Sample wire issue payload used by concrete witnesses. -/
def sampleWireIssue : WireIssue :=
  { id := 1, number := 2, title := "a title", body := "a body",
    comments := none, state := "open", created_at := "t0", updated_at := "t1" }

/-- Sample wire comment payload used by concrete witnesses. -/
def sampleWireComment : WireComment :=
  { id := 7, body := "hello", created_at := "t0", updated_at := "t1" }

/-- The empty cache. -/
def emptyCache : Cache := { issues := [], comments := [] }

/-- C2: a wire issue payload the translator does not recognize as tracked
(fromIssue yields nothing) causes no cache insertion, update or event from
either handleIssue or handleComment: the untracked payload is dropped before
reaching the cache, and no error is raised. -/
theorem untracked_payload_never_reaches_cache
    (matchKey : String → String → Option TrackedKey) (action : String)
    (wi : WireIssue) (wc : WireComment) (c : Cache)
    (huntracked : fromIssue matchKey wi = none) :
    applyOps c (handleIssue matchKey action wi).1 = (c, []) ∧
    applyOps c (handleComment matchKey action wi wc) = (c, []) := by
  constructor
  · by_cases ha : action = "closed" <;>
      simp [handleIssue, huntracked, ha, applyOps, applyOp,
        Cache.removeIssue, Cache.addOrUpdateIssue]
  · by_cases ha : action = "deleted" <;>
      simp [handleComment, huntracked, ha, applyOps, applyOp,
        Cache.addOrUpdateIssue, Cache.removeComment, Cache.addOrUpdateComment]

/-- Witness for C2: a matcher that recognizes nothing drops the payload. -/
theorem untracked_payload_never_reaches_cache_witness :
    applyOps emptyCache
      (handleIssue (fun _ _ => none) "opened" sampleWireIssue).1 =
      (emptyCache, []) ∧
    applyOps emptyCache
      (handleComment (fun _ _ => none) "created" sampleWireIssue
        sampleWireComment) = (emptyCache, []) :=
  untracked_payload_never_reaches_cache (fun _ _ => none) "opened"
    sampleWireIssue sampleWireComment emptyCache rfl

/-- C3: handleIssue dispatches on the action: closed performs exactly one
removeIssue of the translated issue and no addOrUpdateIssue; every other
action performs exactly one addOrUpdateIssue and never removeIssue. -/
theorem handleIssue_action_dispatch
    (matchKey : String → String → Option TrackedKey) (action : String)
    (wi : WireIssue) :
    (action = "closed" →
      (handleIssue matchKey action wi).1 =
        [CacheOp.removeIssue (fromIssue matchKey wi)] ∧
      ∀ i, CacheOp.addOrUpdateIssue i ∉ (handleIssue matchKey action wi).1) ∧
    (action ≠ "closed" →
      (handleIssue matchKey action wi).1 =
        [CacheOp.addOrUpdateIssue (fromIssue matchKey wi)] ∧
      ∀ i, CacheOp.removeIssue i ∉ (handleIssue matchKey action wi).1) := by
  constructor
  · intro ha
    constructor <;> simp [handleIssue, ha]
  · intro ha
    constructor <;> simp [handleIssue, ha]

/-- Witness for C3 at the closed action and a trivial matcher. -/
theorem handleIssue_action_dispatch_witness :
    ("closed" = "closed" →
      (handleIssue (fun _ _ => none) "closed" sampleWireIssue).1 =
        [CacheOp.removeIssue (fromIssue (fun _ _ => none) sampleWireIssue)] ∧
      ∀ i, CacheOp.addOrUpdateIssue i ∉
        (handleIssue (fun _ _ => none) "closed" sampleWireIssue).1) ∧
    ("closed" ≠ "closed" →
      (handleIssue (fun _ _ => none) "closed" sampleWireIssue).1 =
        [CacheOp.addOrUpdateIssue (fromIssue (fun _ _ => none) sampleWireIssue)] ∧
      ∀ i, CacheOp.removeIssue i ∉
        (handleIssue (fun _ _ => none) "closed" sampleWireIssue).1) :=
  handleIssue_action_dispatch (fun _ _ => none) "closed" sampleWireIssue

/-- C4: handleComment always first upserts the parent issue of the comment,
then dispatches on the action: deleted performs removeComment and nothing
else, any other action performs addOrUpdateComment. -/
theorem handleComment_dispatch
    (matchKey : String → String → Option TrackedKey) (action : String)
    (wi : WireIssue) (wc : WireComment) :
    (∃ rest, handleComment matchKey action wi wc =
      CacheOp.addOrUpdateIssue (fromIssue matchKey wi) :: rest) ∧
    (action = "deleted" →
      handleComment matchKey action wi wc =
        [CacheOp.addOrUpdateIssue (fromIssue matchKey wi),
          CacheOp.removeComment
            ((fromIssue matchKey wi).map (fun i => i.metadata.number))
            (fromComment
              ((fromIssue matchKey wi).map (fun i => i.metadata.number))
              ((fromIssue matchKey wi).map (fun i => i.metadata.name))
              ((fromIssue matchKey wi).map (fun i => i.metadata.«namespace»))
              wc)]) ∧
    (action ≠ "deleted" →
      handleComment matchKey action wi wc =
        [CacheOp.addOrUpdateIssue (fromIssue matchKey wi),
          CacheOp.addOrUpdateComment
            ((fromIssue matchKey wi).map (fun i => i.metadata.number))
            (fromComment
              ((fromIssue matchKey wi).map (fun i => i.metadata.number))
              ((fromIssue matchKey wi).map (fun i => i.metadata.name))
              ((fromIssue matchKey wi).map (fun i => i.metadata.«namespace»))
              wc)]) := by
  have h2 : action = "deleted" →
      handleComment matchKey action wi wc =
        [CacheOp.addOrUpdateIssue (fromIssue matchKey wi),
          CacheOp.removeComment
            ((fromIssue matchKey wi).map (fun i => i.metadata.number))
            (fromComment
              ((fromIssue matchKey wi).map (fun i => i.metadata.number))
              ((fromIssue matchKey wi).map (fun i => i.metadata.name))
              ((fromIssue matchKey wi).map (fun i => i.metadata.«namespace»))
              wc)] := fun ha => by simp [handleComment, ha]
  have h3 : action ≠ "deleted" →
      handleComment matchKey action wi wc =
        [CacheOp.addOrUpdateIssue (fromIssue matchKey wi),
          CacheOp.addOrUpdateComment
            ((fromIssue matchKey wi).map (fun i => i.metadata.number))
            (fromComment
              ((fromIssue matchKey wi).map (fun i => i.metadata.number))
              ((fromIssue matchKey wi).map (fun i => i.metadata.name))
              ((fromIssue matchKey wi).map (fun i => i.metadata.«namespace»))
              wc)] := fun ha => by simp [handleComment, ha]
  refine ⟨?_, h2, h3⟩
  by_cases ha : action = "deleted"
  · exact ⟨_, h2 ha⟩
  · exact ⟨_, h3 ha⟩

/-- Witness for C4 at the deleted action and a matcher recognizing a key. -/
theorem handleComment_dispatch_witness :
    (∃ rest, handleComment (fun _ _ => some ⟨"ns", "nm"⟩) "deleted"
        sampleWireIssue sampleWireComment =
      CacheOp.addOrUpdateIssue
        (fromIssue (fun _ _ => some ⟨"ns", "nm"⟩) sampleWireIssue) :: rest) ∧
    ("deleted" = "deleted" →
      handleComment (fun _ _ => some ⟨"ns", "nm"⟩) "deleted"
          sampleWireIssue sampleWireComment =
        [CacheOp.addOrUpdateIssue
            (fromIssue (fun _ _ => some ⟨"ns", "nm"⟩) sampleWireIssue),
          CacheOp.removeComment
            ((fromIssue (fun _ _ => some ⟨"ns", "nm"⟩) sampleWireIssue).map
              (fun i => i.metadata.number))
            (fromComment
              ((fromIssue (fun _ _ => some ⟨"ns", "nm"⟩) sampleWireIssue).map
                (fun i => i.metadata.number))
              ((fromIssue (fun _ _ => some ⟨"ns", "nm"⟩) sampleWireIssue).map
                (fun i => i.metadata.name))
              ((fromIssue (fun _ _ => some ⟨"ns", "nm"⟩) sampleWireIssue).map
                (fun i => i.metadata.«namespace»))
              sampleWireComment)]) ∧
    ("deleted" ≠ "deleted" →
      handleComment (fun _ _ => some ⟨"ns", "nm"⟩) "deleted"
          sampleWireIssue sampleWireComment =
        [CacheOp.addOrUpdateIssue
            (fromIssue (fun _ _ => some ⟨"ns", "nm"⟩) sampleWireIssue),
          CacheOp.addOrUpdateComment
            ((fromIssue (fun _ _ => some ⟨"ns", "nm"⟩) sampleWireIssue).map
              (fun i => i.metadata.number))
            (fromComment
              ((fromIssue (fun _ _ => some ⟨"ns", "nm"⟩) sampleWireIssue).map
                (fun i => i.metadata.number))
              ((fromIssue (fun _ _ => some ⟨"ns", "nm"⟩) sampleWireIssue).map
                (fun i => i.metadata.name))
              ((fromIssue (fun _ _ => some ⟨"ns", "nm"⟩) sampleWireIssue).map
                (fun i => i.metadata.«namespace»))
              sampleWireComment)]) :=
  handleComment_dispatch (fun _ _ => some ⟨"ns", "nm"⟩) "deleted"
    sampleWireIssue sampleWireComment

/-- C5: on action reopened, handleIssue performs the addOrUpdateIssue of the
translated issue and schedules the comment backfill task for it; the
scheduled backfill makes an upstream fetch exactly when the reported comment
count of the issue is positive, and in particular makes none when the count
is zero or absent. -/
theorem reopened_schedules_backfill_iff_comments
    (matchKey : String → String → Option TrackedKey) (wi : WireIssue) :
    (handleIssue matchKey "reopened" wi =
      ([CacheOp.addOrUpdateIssue (fromIssue matchKey wi)],
        [fromIssue matchKey wi])) ∧
    (∀ (fetch : Nat → Except String Unit) (i : Issue),
      ((updateCommentsForIssue fetch i).fetched ≠ [] ↔
        i.data.comments.getD 0 > 0)) ∧
    (∀ (fetch : Nat → Except String Unit) (i : Issue),
      i.data.comments = none → (updateCommentsForIssue fetch i).fetched = []) := by
  refine ⟨by simp [handleIssue], fun fetch i => ?_, fun fetch i hnone => ?_⟩
  · by_cases hc : i.data.comments.getD 0 > 0
    · cases hf : fetch i.metadata.number <;>
        simp [updateCommentsForIssue, hc, hf]
    · simp [updateCommentsForIssue, hc]
  · have hc : ¬ i.data.comments.getD 0 > 0 := by
      rw [hnone]
      simp
    simp [updateCommentsForIssue, hc]

/-- Witness for C5 with a matcher that recognizes a key. -/
theorem reopened_schedules_backfill_iff_comments_witness :
    (handleIssue (fun _ _ => some ⟨"ns", "nm"⟩) "reopened" sampleWireIssue =
      ([CacheOp.addOrUpdateIssue
          (fromIssue (fun _ _ => some ⟨"ns", "nm"⟩) sampleWireIssue)],
        [fromIssue (fun _ _ => some ⟨"ns", "nm"⟩) sampleWireIssue])) ∧
    (∀ (fetch : Nat → Except String Unit) (i : Issue),
      ((updateCommentsForIssue fetch i).fetched ≠ [] ↔
        i.data.comments.getD 0 > 0)) ∧
    (∀ (fetch : Nat → Except String Unit) (i : Issue),
      i.data.comments = none → (updateCommentsForIssue fetch i).fetched = []) :=
  reopened_schedules_backfill_iff_comments (fun _ _ => some ⟨"ns", "nm"⟩)
    sampleWireIssue

/-- C6: the comment backfill resolves normally whatever the upstream fetch
does — in particular a rejected fetch is caught, logged, and never
propagated to the webhook caller. -/
theorem backfill_failure_logged_not_propagated
    (fetch : Nat → Except String Unit) (i : Issue) :
    ((updateCommentsForIssue fetch i).result = .ok ()) ∧
    (∀ err, fetch i.metadata.number = .error err →
      i.data.comments.getD 0 > 0 →
      (updateCommentsForIssue fetch i).logged ≠ []) := by
  constructor
  · by_cases hc : i.data.comments.getD 0 > 0
    · cases hf : fetch i.metadata.number <;>
        simp [updateCommentsForIssue, hc, hf]
    · simp [updateCommentsForIssue, hc]
  · intro err herr hc
    simp [updateCommentsForIssue, hc, herr]

/-- Sample translated issue with a positive comment count. -/
def sampleIssue : Issue :=
  { metadata := { «namespace» := "ns", name := "nm", number := 2, id := 1 }
    data := { body := "b", comments := some 3, state := "open",
              created_at := "t0", updated_at := "t1" } }

/-- Witness for C6: a fetch that always fails is contained. -/
theorem backfill_failure_logged_not_propagated_witness :
    ((updateCommentsForIssue (fun _ => .error "boom") sampleIssue).result =
      .ok ()) ∧
    (∀ err, (fun _ => (.error "boom" : Except String Unit))
        sampleIssue.metadata.number = .error err →
      sampleIssue.data.comments.getD 0 > 0 →
      (updateCommentsForIssue (fun _ => .error "boom") sampleIssue).logged ≠ []) :=
  backfill_failure_logged_not_propagated (fun _ => .error "boom") sampleIssue

/-- C9: a delivery whose event header is neither issues nor issue_comment
performs no cache operation and schedules nothing, is logged as unhandled,
and still ends the response successfully. -/
theorem unhandled_event_ignored
    (matchKey : String → String → Option TrackedKey) (ev : Option String)
    (action : String) (wi : WireIssue) (wc : WireComment) (c : Cache)
    (h1 : ev ≠ some "issues") (h2 : ev ≠ some "issue_comment") :
    (handleGithubEvent matchKey ev action wi wc).ops = [] ∧
    (handleGithubEvent matchKey ev action wi wc).scheduled = [] ∧
    (handleGithubEvent matchKey ev action wi wc).logs = [unhandledEventMsg ev] ∧
    (handleGithubEvent matchKey ev action wi wc).responseEnded = true ∧
    applyOps c (handleGithubEvent matchKey ev action wi wc).ops = (c, []) := by
  unfold handleGithubEvent
  rw [if_neg h1, if_neg h2]
  exact ⟨rfl, rfl, rfl, rfl, rfl⟩

/-- Witness for C9 at the event header push. -/
theorem unhandled_event_ignored_witness :
    (handleGithubEvent (fun _ _ => none) (some "push") "opened"
      sampleWireIssue sampleWireComment).ops = [] ∧
    (handleGithubEvent (fun _ _ => none) (some "push") "opened"
      sampleWireIssue sampleWireComment).scheduled = [] ∧
    (handleGithubEvent (fun _ _ => none) (some "push") "opened"
      sampleWireIssue sampleWireComment).logs =
      [unhandledEventMsg (some "push")] ∧
    (handleGithubEvent (fun _ _ => none) (some "push") "opened"
      sampleWireIssue sampleWireComment).responseEnded = true ∧
    applyOps emptyCache (handleGithubEvent (fun _ _ => none) (some "push")
      "opened" sampleWireIssue sampleWireComment).ops = (emptyCache, []) :=
  unhandled_event_ignored (fun _ _ => none) (some "push") "opened"
    sampleWireIssue sampleWireComment emptyCache (by decide) (by decide)

end Dashboard
